import Mathlib

/-!
Verification of the Nu Skin health-insurance plan calculator.

Shallow embedding of the calculator core from src/src/App.tsx: the static
plan catalog, the threshold selection, and the pure cost computation that
the component computes per plan. Currency amounts and the coinsurance rate
are modelled as rationals. The two numeric input handlers are modelled over
a JavaScript-number type distinguishing finite values from NaN and the
infinities, since only the contribution handler filters non-finite values.
-/

namespace NuskinCalc

/-- Coverage tier, the key type of every per-tier table in the catalog
(`Coverage` in App.tsx, keys employee / spouse / children / family). -/
inductive Coverage
  | employee
  | spouse
  | children
  | family
deriving DecidableEq, Fintype

/-- Display toggle for premiums (`DisplayMode` in App.tsx). -/
inductive DisplayMode
  | monthly
  | pay
deriving DecidableEq, Fintype

/-- One premium entry: a stored monthly figure and an independently stored
per-pay-period figure (`costs[tier]` in App.tsx). -/
structure PremiumCost where
  monthly : ℚ
  pay : ℚ
deriving DecidableEq

/-- A total mapping from coverage tier to a value, mirroring the four-key
object literals of App.tsx. -/
structure TierMap (α : Type) where
  employee : α
  spouse : α
  children : α
  family : α
deriving DecidableEq

/-- Tier lookup, mirroring `obj[coverage]` in App.tsx. -/
def TierMap.get {α : Type} (m : TierMap α) : Coverage → α
  | .employee => m.employee
  | .spouse => m.spouse
  | .children => m.children
  | .family => m.family

/-- Deductible table shape: the HDHP plans store `{employeeOnly, twoPlus}`
and the traditional plan stores `{person, family}`. App.tsx distinguishes
the shapes with `d.employeeOnly !== undefined`, which the match on this sum
type mirrors. -/
inductive DeductibleShape
  | eoTwoPlus (employeeOnly twoPlus : ℚ)
  | personFamily (person family : ℚ)
deriving DecidableEq

/-- Out-of-pocket maximum table: every plan stores `{person, family}`. -/
structure OopRange where
  person : ℚ
  family : ℚ
deriving DecidableEq

/-- A plan record of the catalog (one entry of `planData` in App.tsx). -/
structure Plan where
  name : String
  costs : TierMap PremiumCost
  hsaMatch : TierMap ℚ
  deductible : DeductibleShape
  oopMax : OopRange
  pharmacy : String
deriving DecidableEq

/-- `planData.traditional` of App.tsx. -/
def planData_traditional : Plan :=
  { name := "SelectHealth Traditional"
    costs :=
      { employee := { monthly := 176, pay := 81.23 }
        spouse := { monthly := 401, pay := 185.08 }
        children := { monthly := 330, pay := 152.31 }
        family := { monthly := 599, pay := 276.46 } }
    hsaMatch := { employee := 0, spouse := 0, children := 0, family := 0 }
    deductible := .personFamily 750 2250
    oopMax := { person := 3500, family := 7000 }
    pharmacy := "Tier 1: $15\nTier 2: $30\nTier 3: $60\nTier 4: 30%\nNo deductible needs to be met for this benefit" }

/-- `planData.hdhpA` of App.tsx. -/
def planData_hdhpA : Plan :=
  { name := "SelectHealth HDHP Plan A"
    costs :=
      { employee := { monthly := 88, pay := 40.62 }
        spouse := { monthly := 198, pay := 91.38 }
        children := { monthly := 148, pay := 68.31 }
        family := { monthly := 297, pay := 137.08 } }
    hsaMatch := { employee := 600, spouse := 1200, children := 1200, family := 1200 }
    deductible := .eoTwoPlus 1700 3400
    oopMax := { person := 3500, family := 7000 }
    pharmacy := "Tier 1: $10 AD\nTier 2: $25 AD\nTier 3: $45 AD\nTier 4: 30% AD\nThe deductible must be met first!" }

/-- `planData.hdhpB` of App.tsx. -/
def planData_hdhpB : Plan :=
  { name := "SelectHealth HDHP Plan B"
    costs :=
      { employee := { monthly := 25, pay := 11.54 }
        spouse := { monthly := 55, pay := 25.38 }
        children := { monthly := 52, pay := 23.85 }
        family := { monthly := 82, pay := 37.85 } }
    hsaMatch := { employee := 600, spouse := 1200, children := 1200, family := 1200 }
    deductible := .eoTwoPlus 5000 10000
    oopMax := { person := 6000, family := 12000 }
    pharmacy := "Tier 1: $10 AD\nTier 2: $25 AD\nTier 3: $45 AD\nTier 4: 30% AD\nThe deductible must be met first!" }

/-- `PLAN_ORDER` of App.tsx: the fixed ordered plan list handed to the
presentation layer. -/
def PLAN_ORDER : List Plan := [planData_traditional, planData_hdhpA, planData_hdhpB]

/-- `coverageMaxHSA` of App.tsx: annual HSA contribution cap per tier. -/
def coverageMaxHSA (coverage : Coverage) : ℚ :=
  if coverage = .employee then 4400 else 8750

/-- `premiumFor` of App.tsx: the premium figure shown for the selected
display mode. -/
def premiumFor (plan : Plan) (coverage : Coverage) (mode : DisplayMode) : ℚ :=
  if mode = .monthly then (plan.costs.get coverage).monthly else (plan.costs.get coverage).pay

/-- `employerMatchFor` of App.tsx. The source also writes `?? 0`, which is
a no-op because every plan record carries a total hsaMatch table. -/
def employerMatchFor (plan : Plan) (coverage : Coverage) : ℚ :=
  plan.hsaMatch.get coverage

/-- Result of `thresholdsFor` in App.tsx. -/
structure Thresholds where
  deductible : ℚ
  oopMax : ℚ
deriving DecidableEq

/-- `thresholdsFor` of App.tsx: picks the effective deductible by the shape
of the deductible table, and the effective out-of-pocket max from the
shared person/family table. -/
def thresholdsFor (plan : Plan) (coverage : Coverage) : Thresholds :=
  let deductible :=
    match plan.deductible with
    | .eoTwoPlus employeeOnly twoPlus =>
        if coverage = .employee then employeeOnly else twoPlus
    | .personFamily person family =>
        if coverage = .employee then person else family
  let oopMax := if coverage = .employee then plan.oopMax.person else plan.oopMax.family
  { deductible := deductible, oopMax := oopMax }

/-- `totalContributionIncludingMatch` of App.tsx. -/
def totalContributionIncludingMatch (matchCap employee : ℚ) : ℚ :=
  if matchCap ≤ 0 then employee
  else if employee ≥ matchCap then employee + matchCap
  else employee * 2

/-- The JavaScript `x || 0` applied to a number: returns 0 when x is falsy
(here: when x is 0; the catalog holds no NaN). Used in
`maxMatchForCoverage` of App.tsx. -/
def jsOrZero (q : ℚ) : ℚ := if q = 0 then 0 else q

/-- `maxMatchForCoverage` of App.tsx: maximum of the two HDHP employer
match caps for the selected tier, used by the summary display. -/
def maxMatchForCoverage (coverage : Coverage) : ℚ :=
  max (jsOrZero (planData_hdhpA.hsaMatch.get coverage))
    (jsOrZero (planData_hdhpB.hsaMatch.get coverage))

/-- The fixed `coinsuranceRate` of `calcResults` in App.tsx (20 percent). -/
def coinsuranceRate : ℚ := 0.2

/-- The post-deductible raw amount of `calcResults` in App.tsx: 0 at or
below the deductible, otherwise the 20 percent coinsurance share capped at
`max(oopMax - deductible, 0)`. -/
def postDeductibleRaw (deductible oopMax dExpectedSpend : ℚ) : ℚ :=
  if dExpectedSpend > deductible then
    min ((dExpectedSpend - deductible) * coinsuranceRate) (max (oopMax - deductible) 0)
  else 0

/-- The per-plan record produced by `calcResults` in App.tsx (plan field
omitted). -/
structure CostBreakdown where
  annualEmployeePremiumCost : ℚ
  hsaBenefit : ℚ
  preDeductibleCost : ℚ
  postDeductibleCost : ℚ
  totalSpending : ℚ
deriving DecidableEq

/-- The body of the `calcResults` map in App.tsx for one plan: premium
outflow, HSA benefit, pre- and post-deductible costs and their total. -/
def calcResult (plan : Plan) (coverage : Coverage) (dExpectedSpend dEmployeeContribution : ℚ) :
    CostBreakdown :=
  let thresholds := thresholdsFor plan coverage
  let deductible := thresholds.deductible
  let oopMax := thresholds.oopMax
  let annualEmployeePremiumCost := -((plan.costs.get coverage).monthly * 12)
  let matchAmt := employerMatchFor plan coverage
  let hsaBenefit := min dEmployeeContribution matchAmt
  let preDeductibleCost := -(min dExpectedSpend deductible)
  let postRaw := postDeductibleRaw deductible oopMax dExpectedSpend
  let postDeductibleCost := -postRaw
  let totalSpending :=
    annualEmployeePremiumCost + hsaBenefit + preDeductibleCost + postDeductibleCost
  { annualEmployeePremiumCost := annualEmployeePremiumCost
    hsaBenefit := hsaBenefit
    preDeductibleCost := preDeductibleCost
    postDeductibleCost := postDeductibleCost
    totalSpending := totalSpending }

/-- `calcResults` of App.tsx: the cost breakdown for every plan of the
catalog, in catalog order. -/
def calcResults (coverage : Coverage) (dExpectedSpend dEmployeeContribution : ℚ) :
    List CostBreakdown :=
  PLAN_ORDER.map (fun plan => calcResult plan coverage dExpectedSpend dEmployeeContribution)

/-- A JavaScript number as it arrives from `Number(e.target.value)`:
either a finite value or one of the non-finite values NaN and the two
infinities. -/
inductive JsNumber
  | num (q : ℚ)
  | nan
  | posInf
  | negInf
deriving DecidableEq

/-- `onSetContribution` of App.tsx: replaces a non-finite value by 0, then
clamps to `[0, hsaMaxByCoverage]` before storing the contribution. -/
def onSetContribution (hsaMaxByCoverage : ℚ) (val : JsNumber) : ℚ :=
  let n : ℚ := match val with
    | .num q => q
    | _ => 0
  max 0 (min hsaMaxByCoverage n)

/-- The onChange handler of the expected-spend input in App.tsx: it stores
`Number(e.target.value)` as-is, with no finiteness check and no clamping. -/
def setExpectedSpendHandler (val : JsNumber) : JsNumber := val

/-!
Projection lemmas for `calcResult`, used to reduce the claims to arithmetic
over the thresholds.
-/

lemma calcResult_premium (plan : Plan) (coverage : Coverage) (s c : ℚ) :
    (calcResult plan coverage s c).annualEmployeePremiumCost =
      -((plan.costs.get coverage).monthly * 12) := rfl

lemma calcResult_hsaBenefit (plan : Plan) (coverage : Coverage) (s c : ℚ) :
    (calcResult plan coverage s c).hsaBenefit = min c (employerMatchFor plan coverage) := rfl

lemma calcResult_pre (plan : Plan) (coverage : Coverage) (s c : ℚ) :
    (calcResult plan coverage s c).preDeductibleCost =
      -(min s (thresholdsFor plan coverage).deductible) := rfl

lemma calcResult_post (plan : Plan) (coverage : Coverage) (s c : ℚ) :
    (calcResult plan coverage s c).postDeductibleCost =
      -(postDeductibleRaw (thresholdsFor plan coverage).deductible
        (thresholdsFor plan coverage).oopMax s) := rfl

lemma calcResult_total (plan : Plan) (coverage : Coverage) (s c : ℚ) :
    (calcResult plan coverage s c).totalSpending =
      (calcResult plan coverage s c).annualEmployeePremiumCost +
        (calcResult plan coverage s c).hsaBenefit +
        (calcResult plan coverage s c).preDeductibleCost +
        (calcResult plan coverage s c).postDeductibleCost := rfl

/-!
Arithmetic lemmas about the post-deductible amount.
-/

lemma postDeductibleRaw_nonneg (d o s : ℚ) : 0 ≤ postDeductibleRaw d o s := by
  unfold postDeductibleRaw
  split_ifs with h
  · exact le_min (mul_nonneg (by linarith) (by norm_num [coinsuranceRate])) (le_max_right _ _)
  · exact le_refl 0

lemma outOfPocketTotal_le (d o s : ℚ) (hdo : d ≤ o) : min s d + postDeductibleRaw d o s ≤ o := by
  unfold postDeductibleRaw
  split_ifs with h
  · have h1 : min s d = d := min_eq_right h.le
    have h2 : max (o - d) 0 = o - d := max_eq_left (by linarith)
    have h3 : min ((s - d) * coinsuranceRate) (max (o - d) 0) ≤ o - d := by
      rw [h2]; exact min_le_right _ _
    linarith
  · have h1 : min s d ≤ d := min_le_right s d
    linarith

lemma outOfPocketTotal_mono (d o s1 s2 : ℚ) (h12 : s1 ≤ s2) :
    min s1 d + postDeductibleRaw d o s1 ≤ min s2 d + postDeductibleRaw d o s2 := by
  unfold postDeductibleRaw
  rcases le_or_lt s2 d with h2 | h2
  · have h1 : ¬ s1 > d := by push_neg; linarith
    have h2n : ¬ s2 > d := by push_neg; exact h2
    simp only [if_neg h1, if_neg h2n, add_zero]
    exact min_le_min h12 le_rfl
  · rcases le_or_lt s1 d with h1 | h1
    · have h1n : ¬ s1 > d := by push_neg; exact h1
      simp only [if_neg h1n, if_pos h2, add_zero]
      have hmin1 : min s1 d ≤ d := min_le_right _ _
      have hmin2 : min s2 d = d := min_eq_right h2.le
      have hpos : 0 ≤ min ((s2 - d) * coinsuranceRate) (max (o - d) 0) :=
        le_min (mul_nonneg (by linarith) (by norm_num [coinsuranceRate])) (le_max_right _ _)
      linarith
    · simp only [if_pos h1, if_pos h2]
      have hmin1 : min s1 d = d := min_eq_right h1.le
      have hmin2 : min s2 d = d := min_eq_right h2.le
      have hco : (s1 - d) * coinsuranceRate ≤ (s2 - d) * coinsuranceRate :=
        mul_le_mul_of_nonneg_right (by linarith) (by norm_num [coinsuranceRate])
      have := min_le_min hco (le_refl (max (o - d) 0))
      linarith

/-- Catalog fact: for every catalog plan and tier the effective deductible
is between 0 and the effective out-of-pocket max. -/
lemma catalog_threshold_bounds :
    ∀ plan ∈ PLAN_ORDER, ∀ coverage : Coverage,
      0 ≤ (thresholdsFor plan coverage).deductible ∧
      (thresholdsFor plan coverage).deductible ≤ (thresholdsFor plan coverage).oopMax := by
  intro plan hplan coverage
  simp only [PLAN_ORDER, List.mem_cons, List.not_mem_nil, or_false] at hplan
  rcases hplan with h | h | h <;> subst h <;> cases coverage <;>
    simp [thresholdsFor, planData_traditional, planData_hdhpA, planData_hdhpB] <;>
    norm_num

/-!
Spec-side descriptions used for comparison with the source definitions.
-/

/-- Wording of section 4.1 of the spec for the effective deductible: the
shape with employeeOnly and twoPlusEnrollees selects employeeOnly exactly
for the employeeOnly tier, the person/family shape selects person exactly
for the employeeOnly tier. Stated from the spec for comparison with
`thresholdsFor`. -/
def effectiveDeductibleSpec (plan : Plan) (coverage : Coverage) : ℚ :=
  match plan.deductible with
  | .eoTwoPlus employeeOnly twoPlusEnrollees =>
      if coverage = .employee then employeeOnly else twoPlusEnrollees
  | .personFamily person family =>
      if coverage = .employee then person else family

/-- Wording of section 4.1 of the spec for the effective out-of-pocket
max: person for the employeeOnly tier, family otherwise, for every plan. -/
def effectiveOutOfPocketMaxSpec (plan : Plan) (coverage : Coverage) : ℚ :=
  if coverage = .employee then plan.oopMax.person else plan.oopMax.family

/-!
Claim theorems.
-/

/-- Claim C1: for every catalog plan, every tier, every spend s with
0 ≤ s and every contribution c in [0, tierCap], the post-deductible cost
is nonpositive and the out-of-pocket magnitudes sum to at most the
effective out-of-pocket max. -/
theorem oopCapInvariant :
    ∀ plan ∈ PLAN_ORDER, ∀ (coverage : Coverage) (s c : ℚ),
      0 ≤ s → 0 ≤ c → c ≤ coverageMaxHSA coverage →
      (calcResult plan coverage s c).postDeductibleCost ≤ 0 ∧
      |(calcResult plan coverage s c).preDeductibleCost| +
        |(calcResult plan coverage s c).postDeductibleCost| ≤
        (thresholdsFor plan coverage).oopMax := by
  intro plan hplan coverage s c hs hc hcap
  obtain ⟨hd0, hdo⟩ := catalog_threshold_bounds plan hplan coverage
  rw [calcResult_post, calcResult_pre]
  refine ⟨neg_nonpos.mpr (postDeductibleRaw_nonneg _ _ _), ?_⟩
  rw [abs_neg, abs_neg, abs_of_nonneg (le_min hs hd0),
    abs_of_nonneg (postDeductibleRaw_nonneg _ _ _)]
  exact outOfPocketTotal_le _ _ _ hdo

/-- Witness for C1 at the traditional plan, employee tier, spend 100,
contribution 0. -/
theorem oopCapInvariant_witness :
    (calcResult planData_traditional Coverage.employee 100 0).postDeductibleCost ≤ 0 ∧
    |(calcResult planData_traditional Coverage.employee 100 0).preDeductibleCost| +
      |(calcResult planData_traditional Coverage.employee 100 0).postDeductibleCost| ≤
      (thresholdsFor planData_traditional Coverage.employee).oopMax :=
  oopCapInvariant planData_traditional (List.mem_cons_self _ _) Coverage.employee 100 0
    (by norm_num) (le_refl 0) (by norm_num [coverageMaxHSA])

/-- Claim C2: the threshold selection of the source agrees with the spec
wording of effectiveDeductible and effectiveOutOfPocketMax on every plan
and tier. -/
theorem thresholds_match_spec :
    ∀ (plan : Plan) (coverage : Coverage),
      (thresholdsFor plan coverage).deductible = effectiveDeductibleSpec plan coverage ∧
      (thresholdsFor plan coverage).oopMax = effectiveOutOfPocketMaxSpec plan coverage := by
  intro plan coverage
  cases h : plan.deductible <;>
    simp [thresholdsFor, effectiveDeductibleSpec, effectiveOutOfPocketMaxSpec, h]

/-- Claim C3: HDHP Plan A, employee tier, spend 5000, contribution 600
yields premium -1056, HSA benefit 600, pre-deductible -1700,
post-deductible -660 and total -2816. -/
theorem hdhpA_employee_scenario :
    (calcResult planData_hdhpA Coverage.employee 5000 600).annualEmployeePremiumCost = -1056 ∧
    (calcResult planData_hdhpA Coverage.employee 5000 600).hsaBenefit = 600 ∧
    (calcResult planData_hdhpA Coverage.employee 5000 600).preDeductibleCost = -1700 ∧
    (calcResult planData_hdhpA Coverage.employee 5000 600).postDeductibleCost = -660 ∧
    (calcResult planData_hdhpA Coverage.employee 5000 600).totalSpending = -2816 := by
  have hth : thresholdsFor planData_hdhpA Coverage.employee = ⟨1700, 3500⟩ := rfl
  have hmatch : employerMatchFor planData_hdhpA Coverage.employee = 600 := rfl
  have hmonthly : (planData_hdhpA.costs.get Coverage.employee).monthly = 88 := rfl
  have hprem : (calcResult planData_hdhpA Coverage.employee 5000 600).annualEmployeePremiumCost =
      -1056 := by
    rw [calcResult_premium, hmonthly]; norm_num
  have hhsa : (calcResult planData_hdhpA Coverage.employee 5000 600).hsaBenefit = 600 := by
    rw [calcResult_hsaBenefit, hmatch]; norm_num
  have hpre : (calcResult planData_hdhpA Coverage.employee 5000 600).preDeductibleCost =
      -1700 := by
    rw [calcResult_pre, hth]; norm_num [min_def]
  have hpost : (calcResult planData_hdhpA Coverage.employee 5000 600).postDeductibleCost =
      -660 := by
    rw [calcResult_post, hth]
    norm_num [postDeductibleRaw, coinsuranceRate, min_def, max_def]
  refine ⟨hprem, hhsa, hpre, hpost, ?_⟩
  rw [calcResult_total, hprem, hhsa, hpre, hpost]
  norm_num

/-- Claim C4: for every catalog plan, tier and contribution, the sum of
out-of-pocket magnitudes is monotone in the expected spend. -/
theorem oopTotal_monotone :
    ∀ plan ∈ PLAN_ORDER, ∀ (coverage : Coverage) (c s1 s2 : ℚ),
      0 ≤ s1 → s1 ≤ s2 →
      |(calcResult plan coverage s1 c).preDeductibleCost| +
        |(calcResult plan coverage s1 c).postDeductibleCost| ≤
      |(calcResult plan coverage s2 c).preDeductibleCost| +
        |(calcResult plan coverage s2 c).postDeductibleCost| := by
  intro plan hplan coverage c s1 s2 hs1 h12
  obtain ⟨hd0, _⟩ := catalog_threshold_bounds plan hplan coverage
  simp only [calcResult_pre, calcResult_post, abs_neg]
  rw [abs_of_nonneg (le_min hs1 hd0), abs_of_nonneg (le_min (hs1.trans h12) hd0),
    abs_of_nonneg (postDeductibleRaw_nonneg (thresholdsFor plan coverage).deductible
      (thresholdsFor plan coverage).oopMax s1),
    abs_of_nonneg (postDeductibleRaw_nonneg (thresholdsFor plan coverage).deductible
      (thresholdsFor plan coverage).oopMax s2)]
  exact outOfPocketTotal_mono _ _ _ _ h12

/-- Witness for C4 at HDHP Plan A, family tier, spends 1000 and 4000. -/
theorem oopTotal_monotone_witness :
    |(calcResult planData_hdhpA Coverage.family 1000 0).preDeductibleCost| +
      |(calcResult planData_hdhpA Coverage.family 1000 0).postDeductibleCost| ≤
    |(calcResult planData_hdhpA Coverage.family 4000 0).preDeductibleCost| +
      |(calcResult planData_hdhpA Coverage.family 4000 0).postDeductibleCost| :=
  oopTotal_monotone planData_hdhpA (List.mem_cons_of_mem _ (List.mem_cons_self _ _))
    Coverage.family 0 1000 4000 (by norm_num) (by norm_num)

/-- Claim C5: the three ordered branches of totalContributionIncludingMatch
and its three quoted values. -/
theorem totalContribution_cases :
    (∀ matchCap employee : ℚ,
      (matchCap ≤ 0 → totalContributionIncludingMatch matchCap employee = employee) ∧
      (0 < matchCap → matchCap ≤ employee →
        totalContributionIncludingMatch matchCap employee = employee + matchCap) ∧
      (0 < matchCap → employee < matchCap →
        totalContributionIncludingMatch matchCap employee = employee * 2)) ∧
    totalContributionIncludingMatch 0 500 = 500 ∧
    totalContributionIncludingMatch 600 600 = 1200 ∧
    totalContributionIncludingMatch 600 300 = 600 := by
  refine ⟨fun matchCap employee => ⟨fun h => ?_, fun h1 h2 => ?_, fun h1 h2 => ?_⟩,
    by norm_num [totalContributionIncludingMatch],
    by norm_num [totalContributionIncludingMatch],
    by norm_num [totalContributionIncludingMatch]⟩ <;>
    unfold totalContributionIncludingMatch <;> split_ifs <;> first | rfl | linarith

/-- Witness for C5 discharging each branch hypothesis at a concrete
input. -/
theorem totalContribution_cases_witness :
    totalContributionIncludingMatch (-5) 7 = 7 ∧
    totalContributionIncludingMatch 600 700 = 700 + 600 ∧
    totalContributionIncludingMatch 600 300 = 300 * 2 :=
  ⟨(totalContribution_cases.1 (-5) 7).1 (by norm_num),
   (totalContribution_cases.1 600 700).2.1 (by norm_num) (by norm_num),
   (totalContribution_cases.1 600 300).2.2 (by norm_num) (by norm_num)⟩

/-- Claim C6 (code evaluated at the failing input): the expected-spend
handler stores a non-finite value unchanged instead of normalizing it to
0, while the contribution handler does normalize non-finite values. -/
theorem spendHandler_passes_infinity :
    setExpectedSpendHandler JsNumber.posInf = JsNumber.posInf ∧
    JsNumber.posInf ≠ JsNumber.num 0 ∧
    onSetContribution (coverageMaxHSA Coverage.employee) JsNumber.posInf = 0 ∧
    onSetContribution (coverageMaxHSA Coverage.employee) JsNumber.nan = 0 := by
  have hcap : coverageMaxHSA Coverage.employee = 4400 := rfl
  refine ⟨rfl, by simp, ?_, ?_⟩ <;>
    · show max (0:ℚ) (min (coverageMaxHSA Coverage.employee) 0) = 0
      rw [hcap]
      norm_num [min_def, max_def]

/-- Claim C7: the annual premium cost is minus twelve times the stored
monthly figure, for every plan, tier and display mode, and depends on the
plan only through that monthly figure. -/
theorem annualPremium_from_monthly :
    ∀ (plan : Plan) (coverage : Coverage) (mode : DisplayMode) (s c : ℚ),
      (calcResult plan coverage s c).annualEmployeePremiumCost =
        -((plan.costs.get coverage).monthly * 12) ∧
      ∀ plan2 : Plan,
        (plan2.costs.get coverage).monthly = (plan.costs.get coverage).monthly →
        (calcResult plan2 coverage s c).annualEmployeePremiumCost =
          (calcResult plan coverage s c).annualEmployeePremiumCost := by
  intro plan coverage _mode s c
  refine ⟨calcResult_premium plan coverage s c, fun plan2 h => ?_⟩
  rw [calcResult_premium, calcResult_premium, h]

/-- Witness for C7 at the traditional plan, discharging the monthly
agreement hypothesis by reflexivity. -/
theorem annualPremium_from_monthly_witness :
    (calcResult planData_traditional Coverage.employee 0 0).annualEmployeePremiumCost =
      -((planData_traditional.costs.get Coverage.employee).monthly * 12) ∧
    (calcResult planData_traditional Coverage.family 0 0).annualEmployeePremiumCost =
      (calcResult planData_traditional Coverage.family 0 0).annualEmployeePremiumCost :=
  ⟨(annualPremium_from_monthly planData_traditional Coverage.employee DisplayMode.pay 0 0).1,
   (annualPremium_from_monthly planData_traditional Coverage.family DisplayMode.pay 0 0).2
     planData_traditional rfl⟩

/-- Claim C8: the exposed plan list has exactly three elements in the
fixed order traditional, HDHP Plan A, HDHP Plan B. -/
theorem planOrder_fixed :
    PLAN_ORDER.length = 3 ∧
    PLAN_ORDER.map Plan.name =
      ["SelectHealth Traditional", "SelectHealth HDHP Plan A", "SelectHealth HDHP Plan B"] ∧
    PLAN_ORDER = [planData_traditional, planData_hdhpA, planData_hdhpB] :=
  ⟨rfl, rfl, rfl⟩

/-- Claim C9: for every catalog plan and tier the effective deductible is
at most the effective out-of-pocket max, so the max-with-0 guard on the
cap portion is the identity. -/
theorem deductible_le_oopMax_catalog :
    ∀ plan ∈ PLAN_ORDER, ∀ coverage : Coverage,
      (thresholdsFor plan coverage).deductible ≤ (thresholdsFor plan coverage).oopMax ∧
      max ((thresholdsFor plan coverage).oopMax - (thresholdsFor plan coverage).deductible) 0 =
        (thresholdsFor plan coverage).oopMax - (thresholdsFor plan coverage).deductible := by
  intro plan hplan coverage
  obtain ⟨hd0, hdo⟩ := catalog_threshold_bounds plan hplan coverage
  exact ⟨hdo, max_eq_left (by linarith)⟩

/-- Witness for C9 at HDHP Plan B, family tier. -/
theorem deductible_le_oopMax_catalog_witness :
    (thresholdsFor planData_hdhpB Coverage.family).deductible ≤
      (thresholdsFor planData_hdhpB Coverage.family).oopMax ∧
    max ((thresholdsFor planData_hdhpB Coverage.family).oopMax -
        (thresholdsFor planData_hdhpB Coverage.family).deductible) 0 =
      (thresholdsFor planData_hdhpB Coverage.family).oopMax -
        (thresholdsFor planData_hdhpB Coverage.family).deductible :=
  deductible_le_oopMax_catalog planData_hdhpB
    (List.mem_cons_of_mem _ (List.mem_cons_of_mem _ (List.mem_cons_self _ _))) Coverage.family

/-- Claim C10: both HDHP plans define the same employer match cap per tier
(600 for employee, 1200 otherwise), and the summary maximum over the two
plans equals that common value. -/
theorem hdhp_matchCaps_agree :
    ∀ coverage : Coverage,
      planData_hdhpA.hsaMatch.get coverage = planData_hdhpB.hsaMatch.get coverage ∧
      planData_hdhpA.hsaMatch.get coverage =
        (if coverage = Coverage.employee then 600 else 1200) ∧
      maxMatchForCoverage coverage =
        (if coverage = Coverage.employee then 600 else 1200) := by
  intro coverage
  cases coverage <;>
    simp [maxMatchForCoverage, jsOrZero, planData_hdhpA, planData_hdhpB, TierMap.get]

end NuskinCalc
